import Mathlib

/-!
Shallow embedding of the two overlay components of the OpenFrontIO client
excerpt: the alliance overlay (src/client/graphics/layers/AllianceDisplay.ts)
and the generic events overlay (EventsDisplay, the unnamed source file).
Pure data is translated to Lean structures; the per-tick handlers become
state-passing functions; a JavaScript TypeError from dereferencing a failed
lookup is modelled as an error value threaded through each entry point.
All tick arithmetic is over Int, matching JavaScript number arithmetic on
the integer values involved.
-/

deriving instance DecidableEq for Except

namespace OpenFront

/-- MessageType from core/game/Game (severity tag of a notification). -/
inductive MessageType where
  | success
  | info
  | warn
  | error
  deriving DecidableEq, Repr

/-- PlayerType from core/game/Game; the overlays only discriminate bots. -/
inductive PlayerType where
  | bot
  | human
  | fakeHuman
  deriving DecidableEq, Repr

/-- UnitType from core/game/Game; the overlays only discriminate transports. -/
inductive UnitType where
  | transportShip
  | warship
  | other
  deriving DecidableEq, Repr

/-- AttackUpdate payload consumed by the events overlay. -/
structure AttackUpdate where
  attackerID : Nat
  targetID : Nat
  troops : Int
  retreating : Bool
  id : String
  deriving DecidableEq, Repr

/-- UnitView projection: the overlays read only the unit kind and troops. -/
structure UnitView where
  utype : UnitType
  troops : Int
  deriving DecidableEq, Repr

/-- Modelled from the spec: the Game View player projection (GameView.ts is
not part of this excerpt).  The spec lists the queries the overlays consume:
small numeric ID, external client ID, display name, traitor flag, liveness,
ally membership, player kind, and the live attack and unit lists. -/
structure PlayerView where
  smallID : Nat
  clientID : Option String
  name : String
  displayName : String
  isTraitor : Bool
  isAlive : Bool
  allies : List Nat
  ptype : PlayerType
  incomingAttacks : List AttackUpdate
  outgoingAttacks : List AttackUpdate
  units : List UnitView
  deriving DecidableEq, Repr

/-- Modelled from the spec: the Game View snapshot consumed by both overlays
(current tick counter, spawn-phase predicate, player list, and the local
player if any). -/
structure GameView where
  players : List PlayerView
  ticks : Int
  inSpawnPhase : Bool
  myPlayer : Option PlayerView
  deriving DecidableEq, Repr

/-- Modelled from the spec: player lookup by small numeric ID; the spec error
model says a lookup can find no player, so the result is an Option. -/
def playerBySmallID (g : GameView) (id : Nat) : Option PlayerView :=
  g.players.find? (fun p => p.smallID == id)

/-- Modelled from the spec: player lookup by external client ID.  A null
client ID finds nobody. -/
def playerByClientID (g : GameView) (cid : Option String) : Option PlayerView :=
  match cid with
  | none => none
  | some c => g.players.find? (fun p => p.clientID == some c)

/-- Modelled from the spec: alliance membership test used by the
target-player handler (notify only if the local player is allied with the
requester); an undefined argument is not an ally. -/
def isAlliedWith (my : PlayerView) (other : Option PlayerView) : Bool :=
  match other with
  | none => false
  | some o => my.allies.contains o.smallID

/-- Events published on the event bus by the alliance overlay callbacks.
SendAllianceReplyIntentEvent captures the requestor, the recipient exactly as
looked up when the closure was created (possibly undefined), and the
decision. -/
inductive BusEvent where
  | sendAllianceReply (requestor : PlayerView) (recipient : Option PlayerView)
      (accepted : Bool)
  | goToPlayer (p : PlayerView)
  deriving DecidableEq, Repr

/-- AllianceRequestUpdate payload. -/
structure AllianceRequestUpdate where
  requestorID : Nat
  recipientID : Nat
  deriving DecidableEq, Repr

/-- AllianceRequestReplyUpdate payload. -/
structure AllianceRequestReplyUpdate where
  request : AllianceRequestUpdate
  accepted : Bool
  deriving DecidableEq, Repr

/-- BrokeAllianceUpdate payload. -/
structure BrokeAllianceUpdate where
  traitorID : Nat
  betrayedID : Nat
  deriving DecidableEq, Repr

/-- AllianceExpiredUpdate payload. -/
structure AllianceExpiredUpdate where
  player1ID : Nat
  player2ID : Nat
  deriving DecidableEq, Repr

/-- TargetPlayerUpdate payload. -/
structure TargetPlayerUpdate where
  playerID : Nat
  targetID : Nat
  deriving DecidableEq, Repr

/-- DisplayMessageUpdate payload (playerID is optional: null means
untargeted). -/
structure DisplayMessageUpdate where
  message : String
  messageType : MessageType
  playerID : Option Nat
  deriving DecidableEq, Repr

/-- The emoji record inside an EmojiUpdate; recipientID is either the
AllPlayers broadcast sentinel (modelled as none) or a small ID. -/
structure EmojiMessage where
  senderID : Nat
  recipientID : Option Nat
  message : String
  deriving DecidableEq, Repr

/-- EmojiUpdate payload. -/
structure EmojiUpdate where
  emoji : EmojiMessage
  deriving DecidableEq, Repr

/-- Runs one handler over a batch of updates in arrival order, stopping at
the first fault (a thrown TypeError propagates out of the forEach); the
state already mutated by earlier updates is kept, as in JavaScript. -/
def runHandlers {α σ : Type} (h : α → σ → Except String σ) :
    List α → σ → σ × Option String
  | [], s => (s, none)
  | u :: rest, s =>
    match h u s with
    | .error e => (s, some e)
    | .ok s2 => runHandlers h rest s2

/-- Sequences a fallible stage after an accumulated (state, fault) pair:
once a fault happened, later stages do not run. -/
def andThenStep {σ : Type} (r : σ × Option String) (f : σ → σ × Option String) :
    σ × Option String :=
  match r with
  | (s, some e) => (s, some e)
  | (s, none) => f s

namespace AllianceDisplay

/-- AllianceEvent record of AllianceDisplay.ts; onDelete is the bus event the
stored callback would publish when invoked (each source callback body is a
single emit). -/
structure AllianceEvent where
  description : String
  unsafeDescription : Bool := false
  type : MessageType
  highlight : Bool := false
  createdAt : Int
  onDelete : Option BusEvent := none
  priority : Option Int := none
  duration : Option Int := none
  focusID : Option Nat := none
  deriving DecidableEq, Repr

/-- AllianceRequest record: an AllianceEvent plus the three explicit callback
slots, each modelled by the bus event it would publish. -/
structure AllianceRequest extends AllianceEvent where
  onFocus : Option BusEvent := none
  onAccept : Option BusEvent := none
  onReject : Option BusEvent := none
  deriving DecidableEq, Repr

/-- Ally roster entry. -/
structure Entry where
  name : String
  player : PlayerView
  deriving DecidableEq, Repr

/-- Mutable fields of the AllianceDisplay component, plus the log of events
published on the event bus (busEmitted). -/
structure ADState where
  allies : List Entry := []
  allianceDisplayHidden : Bool := true
  shownOnInit : Bool := false
  allianceEvents : List AllianceEvent := []
  allianceRequests : List AllianceRequest := []
  busEmitted : List BusEvent := []
  deriving DecidableEq, Repr

/-- Publish an event on the event bus (eventBus.emit). -/
def emit (e : BusEvent) (s : ADState) : ADState :=
  { s with busEmitted := s.busEmitted ++ [e] }

/-- addEvent: append to allianceEvents. -/
def addEvent (e : AllianceEvent) (s : ADState) : ADState :=
  { s with allianceEvents := s.allianceEvents ++ [e] }

/-- removeEvent: drop the entry at the given index. -/
def removeEvent (index : Nat) (s : ADState) : ADState :=
  { s with allianceEvents :=
      s.allianceEvents.take index ++ s.allianceEvents.drop (index + 1) }

/-- addAllianceRequest: append to allianceRequests. -/
def addAllianceRequest (r : AllianceRequest) (s : ADState) : ADState :=
  { s with allianceRequests := s.allianceRequests ++ [r] }

/-- removeAllianceRequest: drop the entry at the given index.  Defined in the
source but never called from any code path. -/
def removeAllianceRequest (index : Nat) (s : ADState) : ADState :=
  { s with allianceRequests :=
      s.allianceRequests.take index ++ s.allianceRequests.drop (index + 1) }

/-- Invoke the onAccept callback of a pending request (the Accept button). -/
def invokeOnAccept (r : AllianceRequest) (s : ADState) : ADState :=
  match r.onAccept with
  | none => s
  | some e => emit e s

/-- Invoke the onReject callback of a pending request (the Reject button). -/
def invokeOnReject (r : AllianceRequest) (s : ADState) : ADState :=
  match r.onReject with
  | none => s
  | some e => emit e s

/-- clearExpiredEvents: filter allianceEvents, first normalizing a null
duration to 150 (the source mutates event.duration in place inside the
filter predicate), keeping an event while curTicks < duration + createdAt.
Only allianceEvents is swept; allianceRequests is untouched. -/
def clearExpiredEvents (curTicks : Int) (events : List AllianceEvent) :
    List AllianceEvent :=
  (events.map (fun e => { e with duration := some (e.duration.getD 150) })).filter
    (fun e => decide (curTicks < e.duration.getD 150 + e.createdAt))

/-- updateAllianceDisplay: early return when clientID is null; otherwise find
the local player among the player views and rebuild the ally roster.  When
the find yields no player, the source dereferences it (myPlayer.allies())
and throws: modelled as an error. -/
def updateAllianceDisplay (g : GameView) (cid : Option String) (s : ADState) :
    Except String ADState :=
  if cid = none then .ok s
  else
    match g.players.find? (fun p => p.clientID == cid) with
    | none => .error "TypeError: myPlayer is undefined in updateAllianceDisplay"
    | some my =>
      let allies := my.allies.filterMap (playerBySmallID g)
      .ok { s with allies := allies.map (fun p => { name := p.displayName, player := p }) }

/-- onAllianceRequestEvent: guard on the local player being the addressed
recipient; build the pending request whose description dereferences the
requestor lookup (a failed lookup throws), and whose accept, reject, delete
and focus callbacks close over the looked-up requestor and recipient. -/
def onAllianceRequestEvent (g : GameView) (cid : Option String)
    (u : AllianceRequestUpdate) (s : ADState) : Except String ADState :=
  match playerByClientID g cid with
  | none => .ok s
  | some my =>
    if u.recipientID ≠ my.smallID then .ok s
    else
      match playerBySmallID g u.requestorID with
      | none => .error "TypeError: requestor is undefined in onAllianceRequestEvent"
      | some requestor =>
        let recipient := playerBySmallID g u.recipientID
        .ok (addAllianceRequest
          { description := requestor.name ++ " requests an alliance!"
            type := MessageType.info
            createdAt := g.ticks
            onFocus := some (BusEvent.goToPlayer requestor)
            onAccept := some (BusEvent.sendAllianceReply requestor recipient true)
            onReject := some (BusEvent.sendAllianceReply requestor recipient false)
            onDelete := some (BusEvent.sendAllianceReply requestor recipient false)
            duration := some 150
            focusID := some u.requestorID } s)

/-- onAllianceRequestReplyEvent: only the original requestor is notified; the
description dereferences the recipient lookup; duration 50 on accept, 150 on
reject. -/
def onAllianceRequestReplyEvent (g : GameView) (cid : Option String)
    (u : AllianceRequestReplyUpdate) (s : ADState) : Except String ADState :=
  match playerByClientID g cid with
  | none => .ok s
  | some my =>
    if u.request.requestorID ≠ my.smallID then .ok s
    else
      match playerBySmallID g u.request.recipientID with
      | none => .error "TypeError: recipient is undefined in onAllianceRequestReplyEvent"
      | some recipient =>
        .ok (addEvent
          { description := recipient.name ++
              (if u.accepted then " accepted " else " rejected ") ++
              "your alliance request"
            type := if u.accepted then MessageType.success else MessageType.error
            highlight := true
            createdAt := g.ticks
            focusID := some u.request.recipientID
            duration := some (if u.accepted then 50 else 150) } s)

/-- onBrokeAllianceEvent: the first branch fires when the betrayed player is
not flagged as a traitor and the traitor lookup is the local player; the
second when the betrayed is the local player (its body dereferences the
traitor lookup).  The betrayed lookup is dereferenced in the first condition,
so a failed betrayed lookup throws. -/
def onBrokeAllianceEvent (g : GameView) (cid : Option String)
    (u : BrokeAllianceUpdate) (s : ADState) : Except String ADState :=
  match playerByClientID g cid with
  | none => .ok s
  | some my =>
    match playerBySmallID g u.betrayedID with
    | none => .error "TypeError: betrayed is undefined in onBrokeAllianceEvent"
    | some betrayed =>
      let traitor := playerBySmallID g u.traitorID
      if !betrayed.isTraitor && traitor == some my then
        .ok (addEvent
          { description := "You broke your alliance with " ++ betrayed.name ++
              ", making you a TRAITOR"
            type := MessageType.error
            highlight := true
            createdAt := g.ticks
            focusID := some u.betrayedID
            duration := some 100 } s)
      else if betrayed == my then
        match traitor with
        | none => .error "TypeError: traitor is undefined in onBrokeAllianceEvent"
        | some t =>
          .ok (addEvent
            { description := t.name ++ ", broke their alliance with you"
              type := MessageType.error
              highlight := true
              createdAt := g.ticks
              focusID := some u.traitorID
              duration := some 150 } s)
      else .ok s

/-- onAllianceExpiredEvent: identify the other party by excluding the local
small ID (a falsy other ID, that is 0, also returns); fully guarded, so it
never faults. -/
def onAllianceExpiredEvent (g : GameView) (cid : Option String)
    (u : AllianceExpiredUpdate) (s : ADState) : Except String ADState :=
  match playerByClientID g cid with
  | none => .ok s
  | some my =>
    let otherID : Option Nat :=
      if u.player1ID = my.smallID then some u.player2ID
      else if u.player2ID = my.smallID then some u.player1ID
      else none
    match otherID with
    | none => .ok s
    | some oid =>
      if oid = 0 then .ok s
      else
        match playerBySmallID g oid with
        | none => .ok s
        | some other =>
          if !my.isAlive || !other.isAlive then .ok s
          else
            .ok (addEvent
              { description := "Your alliance with " ++ other.name ++ " expired"
                type := MessageType.warn
                highlight := true
                createdAt := g.ticks
                focusID := some oid } s)

/-- onTargetPlayerEvent: notify only when the local player is allied with the
requester; the description dereferences the target lookup, which throws when
the target is missing. -/
def onTargetPlayerEvent (g : GameView) (cid : Option String)
    (u : TargetPlayerUpdate) (s : ADState) : Except String ADState :=
  let other := playerBySmallID g u.playerID
  match playerByClientID g cid with
  | none => .ok s
  | some my =>
    if !isAlliedWith my other then .ok s
    else
      match playerBySmallID g u.targetID with
      | none => .error "TypeError: target is undefined in onTargetPlayerEvent"
      | some target =>
        .ok (addEvent
          { description := (other.map (fun o => o.name)).getD "" ++
              " requests you attack " ++ target.name
            type := MessageType.info
            highlight := true
            createdAt := g.ticks
            focusID := some u.targetID
            duration := some 300 } s)

/-- The update batch for the alliance overlay, keyed by update kind. -/
structure ADUpdates where
  allianceRequest : List AllianceRequestUpdate := []
  allianceRequestReply : List AllianceRequestReplyUpdate := []
  brokeAlliance : List BrokeAllianceUpdate := []
  targetPlayer : List TargetPlayerUpdate := []
  allianceExpired : List AllianceExpiredUpdate := []
  deriving Repr

/-- Dispatch the batches in the insertion order of the update map:
AllianceRequest, AllianceRequestReply, BrokeAlliance, TargetPlayer,
AllianceExpired; a fault stops the whole dispatch. -/
def dispatchAD (g : GameView) (cid : Option String) (ups : ADUpdates)
    (s : ADState) : ADState × Option String :=
  andThenStep
    (andThenStep
      (andThenStep
        (andThenStep
          (runHandlers (onAllianceRequestEvent g cid) ups.allianceRequest s)
          (runHandlers (onAllianceRequestReplyEvent g cid) ups.allianceRequestReply))
        (runHandlers (onBrokeAllianceEvent g cid) ups.brokeAlliance))
      (runHandlers (onTargetPlayerEvent g cid) ups.targetPlayer))
    (runHandlers (onAllianceExpiredEvent g cid) ups.allianceExpired)

/-- AllianceDisplay.tick: dispatch the update batches; run the one-time
spawn-phase reveal (which also refreshes the roster and can fault); return
early while the display is hidden; otherwise refresh the roster every 10
ticks and sweep allianceEvents every 30 ticks. -/
def tick (g : GameView) (cid : Option String) (ups : ADUpdates) (s : ADState) :
    ADState × Option String :=
  match dispatchAD g cid ups s with
  | (s1, some e) => (s1, some e)
  | (s1, none) =>
    let reveal : ADState × Option String :=
      if !s1.shownOnInit && !g.inSpawnPhase then
        let s2 := { s1 with shownOnInit := true, allianceDisplayHidden := false }
        match updateAllianceDisplay g cid s2 with
        | .error e => (s2, some e)
        | .ok s3 => (s3, none)
      else (s1, none)
    match reveal with
    | (s2, some e) => (s2, some e)
    | (s2, none) =>
      if s2.allianceDisplayHidden then (s2, none)
      else
        let afterRoster : ADState × Option String :=
          if g.ticks % 10 == 0 then
            match updateAllianceDisplay g cid s2 with
            | .error e => (s2, some e)
            | .ok s3 => (s3, none)
          else (s2, none)
        match afterRoster with
        | (s3, some e) => (s3, some e)
        | (s3, none) =>
          if g.ticks % 30 == 0 then
            ({ s3 with allianceEvents := clearExpiredEvents g.ticks s3.allianceEvents },
              none)
          else (s3, none)

end AllianceDisplay

namespace EventsDisplay

/-- Marker for an application callback invoked by the events overlay: either
a button action or the on-expire (onDelete) callback of an event, each
identified by a number. -/
inductive Cb where
  | buttonAction (n : Nat)
  | onDeleteCb (n : Nat)
  deriving DecidableEq, Repr

/-- An action button attached to an event; action is the identity of the
callback it fires. -/
structure Button where
  text : String
  className : String
  action : Nat
  preventClose : Bool := false
  deriving DecidableEq, Repr

/-- The Event record of the events overlay; onDelete is the identity of the
on-expire callback, when present. -/
structure Event where
  description : String
  unsafeDescription : Bool := false
  buttons : List Button := []
  type : MessageType
  highlight : Bool := false
  createdAt : Int
  onDelete : Option Nat := none
  priority : Option Int := none
  duration : Option Int := none
  focusID : Option Nat := none
  deriving DecidableEq, Repr

/-- Mutable fields of the EventsDisplay component. -/
structure EDState where
  events : List Event := []
  incomingAttacks : List AttackUpdate := []
  outgoingAttacks : List AttackUpdate := []
  outgoingBoats : List UnitView := []
  hidden : Bool := false
  newEvents : Nat := 0
  deriving DecidableEq, Repr

/-- addEvent: append, and count it as new while the overlay is hidden. -/
def addEvent (e : Event) (s : EDState) : EDState :=
  let s2 := { s with events := s.events ++ [e] }
  if s2.hidden then { s2 with newEvents := s2.newEvents + 1 } else s2

/-- removeEvent: drop the entry at the given index
(slice 0 index ++ slice from index+1). -/
def removeEvent (index : Nat) (events : List Event) : List Event :=
  events.take index ++ events.drop (index + 1)

/-- The keep predicate of the per-tick expiry filter: age below the explicit
duration, defaulting to 600. -/
def shouldKeep (ticks : Int) (e : Event) : Bool :=
  decide (ticks - e.createdAt < e.duration.getD 600)

/-- The per-tick expiry filter: drop expired events in order, invoking the
on-expire callback of each dropped event that has one; returns the kept
events and the fired callbacks. -/
def expireSweep (ticks : Int) : List Event → List Event × List Cb
  | [] => ([], [])
  | e :: rest =>
    let r := expireSweep ticks rest
    if shouldKeep ticks e then (e :: r.1, r.2)
    else
      match e.onDelete with
      | some c => (r.1, Cb.onDeleteCb c :: r.2)
      | none => r

/-- The cap applied after the expiry filter: when more than 30 events remain,
keep the last 30 (slice minus30). -/
def capEvents (events : List Event) : List Event :=
  if events.length > 30 then events.drop (events.length - 30) else events

/-- The whole event-list maintenance stage of tick: expiry filter with
on-expire callbacks, cap at 30, then the assignment guarded by the length
comparison of the source. -/
def sweepStage (ticks : Int) (events : List Event) : List Event × List Cb :=
  let r := expireSweep ticks events
  let remaining := capEvents r.1
  (if events.length ≠ remaining.length then remaining else events, r.2)

/-- onDisplayMessageEvent: suppressed when the message is targeted and the
local player is missing or not the target; otherwise append the
notification. -/
def onDisplayMessageEvent (g : GameView) (cid : Option String)
    (u : DisplayMessageUpdate) (s : EDState) : Except String EDState :=
  let notif : Event :=
    { description := u.message
      createdAt := g.ticks
      highlight := true
      type := u.messageType
      unsafeDescription := true }
  match u.playerID with
  | none => .ok (addEvent notif s)
  | some pid =>
    match playerByClientID g cid with
    | none => .ok s
    | some my =>
      if my.smallID ≠ pid then .ok s else .ok (addEvent notif s)

/-- onEmojiMessageEvent: guarded on the local player; the recipient branch
dereferences the sender lookup and the sent-to branch dereferences the
recipient lookup, each of which throws when the lookup fails. -/
def onEmojiMessageEvent (g : GameView) (cid : Option String)
    (u : EmojiUpdate) (s : EDState) : Except String EDState :=
  match playerByClientID g cid with
  | none => .ok s
  | some my =>
    let sender := playerBySmallID g u.emoji.senderID
    match u.emoji.recipientID with
    | none =>
      -- recipient is the AllPlayers broadcast sentinel: it is never the local
      -- player, and the sent-to branch requires a non-broadcast recipient.
      .ok s
    | some rid =>
      let recipient := playerBySmallID g rid
      if recipient == some my then
        match sender with
        | none => .error "TypeError: sender is undefined in onEmojiMessageEvent"
        | some sd =>
          .ok (addEvent
            { description := sd.displayName ++ ":" ++ u.emoji.message
              unsafeDescription := true
              type := MessageType.info
              highlight := true
              createdAt := g.ticks
              focusID := some u.emoji.senderID } s)
      else if sender == some my then
        match recipient with
        | none => .error "TypeError: recipient is undefined in onEmojiMessageEvent"
        | some rc =>
          .ok (addEvent
            { description := "Sent " ++ rc.displayName ++ ": " ++ u.emoji.message
              unsafeDescription := true
              type := MessageType.info
              highlight := true
              createdAt := g.ticks
              focusID := some rc.smallID } s)
      else .ok s

/-- The update batch for the events overlay, keyed by update kind. -/
structure EDUpdates where
  displayEvents : List DisplayMessageUpdate := []
  emojis : List EmojiUpdate := []
  deriving Repr

/-- The incoming-attack recompute: filter out attacks from bot-typed
attackers, dereferencing each attacker lookup (a failed lookup throws). -/
def filterNonBot (g : GameView) : List AttackUpdate → Except String (List AttackUpdate)
  | [] => .ok []
  | a :: rest =>
    match playerBySmallID g a.attackerID with
    | none => .error "TypeError: attacker is undefined in the incoming filter"
    | some p =>
      match filterNonBot g rest with
      | .error e => .error e
      | .ok r => if p.ptype ≠ PlayerType.bot then .ok (a :: r) else .ok r

/-- Dispatch the batches in the insertion order of the update map:
DisplayEvent then Emoji; a fault stops the whole dispatch. -/
def dispatchED (g : GameView) (cid : Option String) (ups : EDUpdates) (s : EDState) :
    EDState × Option String :=
  andThenStep (runHandlers (onDisplayMessageEvent g cid) ups.displayEvents s)
    (runHandlers (onEmojiMessageEvent g cid) ups.emojis)

/-- EventsDisplay.tick: dispatch the batches (DisplayEvent then Emoji),
run the event-list maintenance stage, then return unless a local player is
present, in which case recompute the three live projections (the incoming
filter can fault before its assignment, leaving the earlier mutations in
place, as in JavaScript). -/
def tick (g : GameView) (cid : Option String) (ups : EDUpdates) (s : EDState) :
    (EDState × List Cb) × Option String :=
  match dispatchED g cid ups s with
  | (s1, some e) => ((s1, []), some e)
  | (s1, none) =>
    let r := sweepStage g.ticks s1.events
    let s2 := { s1 with events := r.1 }
    match g.myPlayer with
    | none => ((s2, r.2), none)
    | some my =>
      match filterNonBot g my.incomingAttacks with
      | .error e => ((s2, r.2), some e)
      | .ok inc =>
        let s3 :=
          { s2 with
            incomingAttacks := inc
            outgoingAttacks := my.outgoingAttacks.filter (fun a => a.targetID != 0)
            outgoingBoats := my.units.filter (fun u => u.utype == UnitType.transportShip) }
        ((s3, r.2), none)

/-- The click handler of a rendered button: fire the button action, and
unless the button prevents it, remove the clicked entry; the on-expire
callback of the entry is never fired here. -/
def clickButton (s : EDState) (index : Nat) (btn : Button) : EDState × List Cb :=
  let fired := [Cb.buttonAction btn.action]
  if !btn.preventClose then
    ({ s with events := removeEvent index s.events }, fired)
  else (s, fired)

/-- The comparator of render as a boolean total order: cmp a b is at most
zero exactly when the defaulted priorities (100000 when absent) are equal
and createdAt of a is at most that of b, or the defaulted priority of a is
the larger. -/
def renderLe (a b : Event) : Bool :=
  let aP := a.priority.getD 100000
  let bP := b.priority.getD 100000
  if aP == bP then decide (a.createdAt ≤ b.createdAt) else decide (bP < aP)

/-- The sort applied to the event list in render: a stable sort by the
comparator above (JavaScript array sort is stable). -/
def renderSort (events : List Event) : List Event :=
  events.mergeSort renderLe

end EventsDisplay

/-! Records named by the theorems below: the exact notification values built
by the corresponding handler branches. -/

/-- The self-directed notification of the first branch of
onBrokeAllianceEvent. -/
def traitorNotif (g : GameView) (u : BrokeAllianceUpdate) (betrayed : PlayerView) :
    AllianceDisplay.AllianceEvent :=
  { description := "You broke your alliance with " ++ betrayed.name ++
      ", making you a TRAITOR"
    type := MessageType.error
    highlight := true
    createdAt := g.ticks
    focusID := some u.betrayedID
    duration := some 100 }

/-- The notification of the second branch of onBrokeAllianceEvent. -/
def betrayedNotif (g : GameView) (u : BrokeAllianceUpdate) (t : PlayerView) :
    AllianceDisplay.AllianceEvent :=
  { description := t.name ++ ", broke their alliance with you"
    type := MessageType.error
    highlight := true
    createdAt := g.ticks
    focusID := some u.traitorID
    duration := some 150 }

/-- The notification built when the local player receives an emoji. -/
def recvNotif (g : GameView) (u : EmojiUpdate) (sd : PlayerView) :
    EventsDisplay.Event :=
  { description := sd.displayName ++ ":" ++ u.emoji.message
    unsafeDescription := true
    type := MessageType.info
    highlight := true
    createdAt := g.ticks
    focusID := some u.emoji.senderID }

/-- The notification built when the local player sent an emoji to a specific
player. -/
def sentNotif (g : GameView) (u : EmojiUpdate) (rc : PlayerView) :
    EventsDisplay.Event :=
  { description := "Sent " ++ rc.displayName ++ ": " ++ u.emoji.message
    unsafeDescription := true
    type := MessageType.info
    highlight := true
    createdAt := g.ticks
    focusID := some rc.smallID }

/-- Relation between alliance-overlay states reached by update dispatch: the
roster, visibility flags and bus log are untouched, and the two event lists
only grow by appended entries. -/
def ADExtends (s s2 : AllianceDisplay.ADState) : Prop :=
  s2.allies = s.allies ∧
  s2.allianceDisplayHidden = s.allianceDisplayHidden ∧
  s2.shownOnInit = s.shownOnInit ∧
  s2.busEmitted = s.busEmitted ∧
  (∃ tail, s2.allianceEvents = s.allianceEvents ++ tail) ∧
  (∃ tail, s2.allianceRequests = s.allianceRequests ++ tail)

/-- The strict below relation of the priority key as the sorting claim words
it: descending explicit priority with an absent priority effectively lowest. -/
def specPrioBelow (a b : EventsDisplay.Event) : Bool :=
  match a.priority, b.priority with
  | none, none => false
  | none, some _ => true
  | some _, none => false
  | some x, some y => decide (x < y)

/-- The rendering order the sorting claim describes: descending priority with
absent lowest, ties broken by ascending creation tick. -/
def claimOrder (a b : EventsDisplay.Event) : Bool :=
  specPrioBelow b a ||
    (!specPrioBelow a b && !specPrioBelow b a && decide (a.createdAt ≤ b.createdAt))

/-! Concrete fixtures used by the counterexamples and witnesses. -/

/-- A player with every optional capability empty; fields are overridden per
fixture. -/
def basePlayer : PlayerView :=
  { smallID := 0, clientID := none, name := "", displayName := ""
    isTraitor := false, isAlive := true, allies := [], ptype := PlayerType.human
    incomingAttacks := [], outgoingAttacks := [], units := [] }

/-- Requesting player A of the alliance-request scenario (small ID 5). -/
def pA : PlayerView := { basePlayer with smallID := 5, name := "PlayerA", displayName := "PlayerA" }

/-- The local player of the alliance-request scenario (small ID 1). -/
def pL : PlayerView := { basePlayer with smallID := 1, clientID := some "me", name := "Me", displayName := "Me" }

/-- Game view at tick 100 of the alliance-request scenario. -/
def g100 : GameView := { players := [pA, pL], ticks := 100, inSpawnPhase := false, myPlayer := some pL }

/-- Game view at tick 270, the first sweep tick at or after tick 250. -/
def g270 : GameView := { players := [pA, pL], ticks := 270, inSpawnPhase := false, myPlayer := some pL }

/-- Alliance overlay state already revealed and visible, otherwise empty. -/
def adS0 : AllianceDisplay.ADState :=
  { allianceDisplayHidden := false, shownOnInit := true }

/-- The pending request the handler builds at tick 100 for the scenario. -/
def adReq : AllianceDisplay.AllianceRequest :=
  { description := "PlayerA requests an alliance!"
    type := MessageType.info
    createdAt := 100
    onDelete := some (BusEvent.sendAllianceReply pA (some pL) false)
    duration := some 150
    focusID := some 5
    onFocus := some (BusEvent.goToPlayer pA)
    onAccept := some (BusEvent.sendAllianceReply pA (some pL) true)
    onReject := some (BusEvent.sendAllianceReply pA (some pL) false) }

/-- The overlay state after the request was delivered. -/
def adS1v : AllianceDisplay.ADState :=
  { allianceDisplayHidden := false, shownOnInit := true, allianceRequests := [adReq] }

/-- Local player of the broke-alliance fixtures (small ID 1). -/
def pMe : PlayerView := { basePlayer with smallID := 1, clientID := some "me", name := "Me", displayName := "Me" }

/-- A player already flagged as traitor (small ID 2). -/
def pFlag : PlayerView := { basePlayer with smallID := 2, name := "Flagged", displayName := "Flagged", isTraitor := true }

/-- An unflagged third player (small ID 3). -/
def pPlain : PlayerView := { basePlayer with smallID := 3, name := "Plain", displayName := "Plain" }

/-- Another unflagged player (small ID 4). -/
def pOther : PlayerView := { basePlayer with smallID := 4, name := "Other", displayName := "Other" }

/-- Game view of the broke-alliance fixtures. -/
def gBroke : GameView :=
  { players := [pMe, pFlag, pPlain, pOther], ticks := 10, inSpawnPhase := false, myPlayer := some pMe }

/-- The empty alliance overlay state. -/
def adEmpty : AllianceDisplay.ADState := {}

/-- Game view containing no player with the local client ID. -/
def gNoMe : GameView := { players := [pA], ticks := 0, inSpawnPhase := false, myPlayer := none }

/-- A local player with an incoming attack whose attacker (small ID 99) is
not a known player. -/
def pBad : PlayerView :=
  { basePlayer with
    smallID := 1
    clientID := some "me"
    incomingAttacks := [{ attackerID := 99, targetID := 1, troops := 10, retreating := false, id := "a1" }] }

/-- Game view where the incoming-attack recompute dereferences a failed
attacker lookup. -/
def gAtkBad : GameView := { players := [pBad], ticks := 0, inSpawnPhase := false, myPlayer := some pBad }

/-- The empty events overlay state. -/
def edEmpty : EventsDisplay.EDState := {}

/-- Emoji sender (small ID 5). -/
def pS : PlayerView := { basePlayer with smallID := 5, name := "Sender", displayName := "Sender" }

/-- Emoji third-party recipient (small ID 2). -/
def pR : PlayerView := { basePlayer with smallID := 2, name := "Recv", displayName := "Recv" }

/-- Game view of the emoji fixtures; the local player has small ID 1. -/
def gEmoji : GameView := { players := [pMe, pS, pR], ticks := 40, inSpawnPhase := false, myPlayer := some pMe }

/-- A human attacker (small ID 9). -/
def pAtk : PlayerView := { basePlayer with smallID := 9, name := "Atk", displayName := "Atk" }

/-- An incoming attack from player 9. -/
def atkIn9 : AttackUpdate := { attackerID := 9, targetID := 1, troops := 5, retreating := false, id := "in1" }

/-- An outgoing attack with a zero target. -/
def atkOut0 : AttackUpdate := { attackerID := 1, targetID := 0, troops := 3, retreating := false, id := "o0" }

/-- An outgoing attack with target 9. -/
def atkOut9 : AttackUpdate := { attackerID := 1, targetID := 9, troops := 4, retreating := false, id := "o9" }

/-- Local player of the attack-projection witness. -/
def pL9 : PlayerView :=
  { basePlayer with
    smallID := 1
    clientID := some "me"
    incomingAttacks := [atkIn9]
    outgoingAttacks := [atkOut0, atkOut9] }

/-- Game view of the attack-projection witness. -/
def gW9 : GameView := { players := [pAtk, pL9], ticks := 7, inSpawnPhase := false, myPlayer := some pL9 }

/-- An alliance event without explicit duration created at tick 0 (expired by
tick 200 under the default 150). -/
def eOldA : AllianceDisplay.AllianceEvent := { description := "old", type := MessageType.info, createdAt := 0 }

/-- An alliance event without explicit duration created at tick 60 (alive at
tick 200). -/
def eLiveA : AllianceDisplay.AllianceEvent := { description := "live", type := MessageType.info, createdAt := 60 }

/-- The surviving alliance event after the sweep normalized its duration. -/
def eLiveN : AllianceDisplay.AllianceEvent := { eLiveA with duration := some 150 }

/-- A generic event without explicit duration created at tick 0 (expired by
tick 700 under the default 600). -/
def eOldG : EventsDisplay.Event := { description := "old", type := MessageType.info, createdAt := 0 }

/-- A generic event without explicit duration created at tick 200 (alive at
tick 700). -/
def eLiveG : EventsDisplay.Event := { description := "live", type := MessageType.info, createdAt := 200 }

/-- An expired generic event carrying an on-expire callback (identity 7). -/
def evA : EventsDisplay.Event :=
  { description := "expiring", type := MessageType.warn, createdAt := 0
    duration := some 100, onDelete := some 7 }

/-- A dismissable button (callback identity 3) that closes on click. -/
def btnW : EventsDisplay.Button := { text := "ok", className := "btn-info", action := 3 }

/-- A live generic event carrying the dismissable button. -/
def evB : EventsDisplay.Event :=
  { description := "clickable", type := MessageType.info, createdAt := 990, buttons := [btnW] }

/-- Events overlay state holding the expiring and the clickable events. -/
def sW : EventsDisplay.EDState := { events := [evA, evB] }

/-- One generic event of the 31-element cap fixture. -/
def capEv (i : Nat) : EventsDisplay.Event :=
  { description := "", type := MessageType.info, createdAt := Int.ofNat i }

/-- Thirty-one live generic events. -/
def evs31 : List EventsDisplay.Event := (List.range 31).map capEv

/-- Event with explicit priority 5 created at tick 1. -/
def e1C7 : EventsDisplay.Event := { description := "p5", type := MessageType.info, createdAt := 1, priority := some 5 }

/-- Event without explicit priority created at tick 2. -/
def e2C7 : EventsDisplay.Event := { description := "none", type := MessageType.info, createdAt := 2 }

/-- An already-expired alliance event held by a hidden overlay. -/
def eHid : AllianceDisplay.AllianceEvent :=
  { description := "stale", type := MessageType.info, createdAt := 0, duration := some 150 }

/-- Hidden alliance overlay state after the one-time reveal check has run. -/
def sHide : AllianceDisplay.ADState :=
  { allianceDisplayHidden := true, shownOnInit := true, allianceEvents := [eHid] }

/-- Game view at tick 300 (a roster-refresh and sweep tick) for the hidden
overlay witness. -/
def gHid : GameView :=
  { players := [pMe, pFlag, pPlain, pOther], ticks := 300, inSpawnPhase := false, myPlayer := some pMe }

/-- An update batch whose broke-alliance record targets the local player. -/
def upsHid : AllianceDisplay.ADUpdates := { brokeAlliance := [{ traitorID := 4, betrayedID := 1 }] }

/-! Helper lemmas about the event-list maintenance of the events overlay. -/

/-- The kept part of the expiry filter is exactly the list filtered by the
keep predicate. -/
theorem expireSweep_fst (t : Int) :
    ∀ es : List EventsDisplay.Event,
      (EventsDisplay.expireSweep t es).1 = es.filter (EventsDisplay.shouldKeep t)
  | [] => rfl
  | e :: rest => by
    simp only [EventsDisplay.expireSweep, List.filter_cons]
    cases h : EventsDisplay.shouldKeep t e with
    | true => simp [h, expireSweep_fst t rest]
    | false => cases ho : e.onDelete <;> simp [h, ho, expireSweep_fst t rest]

/-- Every dropped event that carries an on-expire callback has that callback
fired by the expiry filter. -/
theorem expireSweep_snd_mem (t : Int) :
    ∀ (es : List EventsDisplay.Event) (e : EventsDisplay.Event) (c : Nat),
      e ∈ es → EventsDisplay.shouldKeep t e = false → e.onDelete = some c →
      EventsDisplay.Cb.onDeleteCb c ∈ (EventsDisplay.expireSweep t es).2
  | [], e, c => by intro h; cases h
  | x :: rest, e, c => by
    intro hmem hk ho
    simp only [EventsDisplay.expireSweep]
    rcases List.mem_cons.mp hmem with heq | htail
    · subst heq
      simp [hk, ho]
    · have ih := expireSweep_snd_mem t rest e c htail hk ho
      cases hkx : EventsDisplay.shouldKeep t x with
      | true => simpa [hkx] using ih
      | false => cases hox : x.onDelete <;> simp [hkx, hox] <;> simp [ih]

/-- The cap keeps a sublist. -/
theorem capEvents_sublist (es : List EventsDisplay.Event) :
    (EventsDisplay.capEvents es).Sublist es := by
  unfold EventsDisplay.capEvents
  split
  · exact List.drop_sublist _ _
  · exact List.Sublist.refl _

/-- The cap bounds the length at 30 without shortening an already short
list. -/
theorem capEvents_length (es : List EventsDisplay.Event) :
    (EventsDisplay.capEvents es).length = min es.length 30 := by
  unfold EventsDisplay.capEvents
  split
  · simp only [List.length_drop]; omega
  · omega

/-- The maintenance stage computes the cap of the filtered list; the guarded
assignment of the source makes no difference. -/
theorem sweepStage_fst (t : Int) (es : List EventsDisplay.Event) :
    (EventsDisplay.sweepStage t es).1 =
      EventsDisplay.capEvents (es.filter (EventsDisplay.shouldKeep t)) := by
  simp only [EventsDisplay.sweepStage, expireSweep_fst]
  split
  · rfl
  · rename_i hlen
    have hsub : (EventsDisplay.capEvents (es.filter (EventsDisplay.shouldKeep t))).Sublist es :=
      (capEvents_sublist _).trans (List.filter_sublist es)
    have : EventsDisplay.capEvents (es.filter (EventsDisplay.shouldKeep t)) = es :=
      hsub.eq_of_length (by omega)
    exact this.symm

/-- C4: for both overlays, once the age of a notification reaches its
effective duration (the explicit duration if set, else 600 ticks for the
generic events list and 150 for the alliance events list), the notification
is absent from the list produced by the expiry sweep; every survivor is
strictly younger than its effective duration. -/
theorem claim_C4_expiry_sweep (t : Int) (aEvents : List AllianceDisplay.AllianceEvent)
    (gEvents : List EventsDisplay.Event) :
    (∀ e ∈ AllianceDisplay.clearExpiredEvents t aEvents,
        t - e.createdAt < e.duration.getD 150) ∧
    (∀ e : AllianceDisplay.AllianceEvent, t - e.createdAt ≥ e.duration.getD 150 →
        e ∉ AllianceDisplay.clearExpiredEvents t aEvents) ∧
    (∀ e ∈ (EventsDisplay.sweepStage t gEvents).1,
        t - e.createdAt < e.duration.getD 600) ∧
    (∀ e : EventsDisplay.Event, t - e.createdAt ≥ e.duration.getD 600 →
        e ∉ (EventsDisplay.sweepStage t gEvents).1) := by
  have ha : ∀ e ∈ AllianceDisplay.clearExpiredEvents t aEvents,
      t - e.createdAt < e.duration.getD 150 := by
    intro e he
    unfold AllianceDisplay.clearExpiredEvents at he
    have hp := (List.mem_filter.mp he).2
    have := of_decide_eq_true hp
    omega
  have hg : ∀ e ∈ (EventsDisplay.sweepStage t gEvents).1,
      t - e.createdAt < e.duration.getD 600 := by
    intro e he
    rw [sweepStage_fst] at he
    have hf := (capEvents_sublist _).subset he
    have hp := (List.mem_filter.mp hf).2
    have := of_decide_eq_true (by simpa [EventsDisplay.shouldKeep] using hp)
    omega
  refine ⟨ha, ?_, hg, ?_⟩
  · intro e hge hmem
    have := ha e hmem
    omega
  · intro e hge hmem
    have := hg e hmem
    omega

/-- Witness for the expiry claim: at tick 200 the default-duration alliance
event created at tick 0 is gone and the one created at tick 60 survives; at
tick 700 the default-duration generic event created at tick 0 is gone and the
one created at tick 200 survives. -/
theorem claim_C4_witness :
    eLiveN ∈ AllianceDisplay.clearExpiredEvents 200 [eOldA, eLiveA] ∧
    (200 : Int) - eLiveN.createdAt < eLiveN.duration.getD 150 ∧
    eOldA ∉ AllianceDisplay.clearExpiredEvents 200 [eOldA, eLiveA] ∧
    eLiveG ∈ (EventsDisplay.sweepStage 700 [eOldG, eLiveG]).1 ∧
    (700 : Int) - eLiveG.createdAt < eLiveG.duration.getD 600 ∧
    eOldG ∉ (EventsDisplay.sweepStage 700 [eOldG, eLiveG]).1 := by
  have h1 := claim_C4_expiry_sweep 200 [eOldA, eLiveA] []
  have h2 := claim_C4_expiry_sweep 700 [] [eOldG, eLiveG]
  exact ⟨by decide, h1.1 eLiveN (by decide), h1.2.1 eOldA (by decide),
    by decide, h2.2.2.1 eLiveG (by decide), h2.2.2.2 eOldG (by decide)⟩

/-- C5: clicking a button without the prevent-close flag removes exactly the
clicked entry and fires only the button action, never an on-expire callback;
the tick expiry filter removes an expired entry and fires its on-expire
callback when present. -/
theorem claim_C5_dismiss_vs_expiry (s : EventsDisplay.EDState) (i : Nat)
    (btn : EventsDisplay.Button) (t : Int)
    (hpc : btn.preventClose = false) :
    (EventsDisplay.clickButton s i btn).1.events =
      s.events.take i ++ s.events.drop (i + 1) ∧
    (i < s.events.length →
      (EventsDisplay.clickButton s i btn).1.events.length = s.events.length - 1) ∧
    (EventsDisplay.clickButton s i btn).2 = [EventsDisplay.Cb.buttonAction btn.action] ∧
    (∀ c, EventsDisplay.Cb.onDeleteCb c ∉ (EventsDisplay.clickButton s i btn).2) ∧
    (∀ e ∈ s.events, EventsDisplay.shouldKeep t e = false →
      e ∉ (EventsDisplay.expireSweep t s.events).1 ∧
      ∀ c, e.onDelete = some c →
        EventsDisplay.Cb.onDeleteCb c ∈ (EventsDisplay.expireSweep t s.events).2) := by
  have hclick : EventsDisplay.clickButton s i btn =
      ({ s with events := EventsDisplay.removeEvent i s.events },
        [EventsDisplay.Cb.buttonAction btn.action]) := by
    unfold EventsDisplay.clickButton
    rw [hpc]
    rfl
  refine ⟨?_, ?_, ?_, ?_, ?_⟩
  · rw [hclick]; rfl
  · intro hi
    rw [hclick]
    simp only [EventsDisplay.removeEvent, List.length_append, List.length_take,
      List.length_drop]
    omega
  · rw [hclick]
  · intro c
    rw [hclick]
    simp
  · intro e he hk
    constructor
    · rw [expireSweep_fst]
      intro hmem
      have := (List.mem_filter.mp hmem).2
      rw [hk] at this
      cases this
    · intro c hc
      exact expireSweep_snd_mem t s.events e c he hk hc

/-- Witness for the dismissal claim: clicking the button of the clickable
event removes it alone and fires only the button action, while the tick-1000
expiry drops the expired event and fires its on-expire callback. -/
theorem claim_C5_witness :
    (EventsDisplay.clickButton sW 0 btnW).1.events = [evB] ∧
    (EventsDisplay.clickButton sW 0 btnW).1.events.length = sW.events.length - 1 ∧
    (EventsDisplay.clickButton sW 0 btnW).2 = [EventsDisplay.Cb.buttonAction 3] ∧
    EventsDisplay.Cb.onDeleteCb 7 ∉ (EventsDisplay.clickButton sW 0 btnW).2 ∧
    evA ∉ (EventsDisplay.expireSweep 1000 sW.events).1 ∧
    EventsDisplay.Cb.onDeleteCb 7 ∈ (EventsDisplay.expireSweep 1000 sW.events).2 := by
  have h := claim_C5_dismiss_vs_expiry sW 0 btnW 1000 rfl
  have hA := h.2.2.2.2 evA (by decide) (by decide)
  exact ⟨h.1.trans (by decide), h.2.1 (by decide), h.2.2.1, h.2.2.2.1 7,
    hA.1, hA.2 7 (by decide)⟩

/-- C6: after the maintenance stage of a tick, the generic notification list
has at most 30 entries, and when the filtered list exceeds 30 the stage keeps
exactly the suffix of the 30 most recent entries in insertion order. -/
theorem claim_C6_cap (t : Int) (es : List EventsDisplay.Event) :
    (EventsDisplay.sweepStage t es).1.length ≤ 30 ∧
    ((es.filter (EventsDisplay.shouldKeep t)).length > 30 →
      (EventsDisplay.sweepStage t es).1 =
        (es.filter (EventsDisplay.shouldKeep t)).drop
          ((es.filter (EventsDisplay.shouldKeep t)).length - 30)) := by
  constructor
  · rw [sweepStage_fst]
    have := capEvents_length (es.filter (EventsDisplay.shouldKeep t))
    omega
  · intro h
    rw [sweepStage_fst]
    unfold EventsDisplay.capEvents
    rw [if_pos h]

/-- Witness for the cap claim: with 31 live events the stage keeps 30,
dropping the oldest. -/
theorem claim_C6_witness :
    (EventsDisplay.sweepStage 0 evs31).1.length ≤ 30 ∧
    (EventsDisplay.sweepStage 0 evs31).1 =
      (evs31.filter (EventsDisplay.shouldKeep 0)).drop
        ((evs31.filter (EventsDisplay.shouldKeep 0)).length - 30) := by
  exact ⟨(claim_C6_cap 0 evs31).1, (claim_C6_cap 0 evs31).2 (by decide)⟩

/-! Helper lemmas about the render comparator. -/

/-- What the render comparator decides: equal defaulted priorities compare by
creation tick, unequal ones put the larger priority first. -/
theorem renderLe_iff (a b : EventsDisplay.Event) :
    EventsDisplay.renderLe a b = true ↔
      ((a.priority.getD 100000 = b.priority.getD 100000 ∧ a.createdAt ≤ b.createdAt) ∨
        (a.priority.getD 100000 ≠ b.priority.getD 100000 ∧
          b.priority.getD 100000 < a.priority.getD 100000)) := by
  by_cases hab : a.priority.getD 100000 = b.priority.getD 100000 <;>
    simp [EventsDisplay.renderLe, hab, beq_iff_eq]

/-- The render comparator is transitive. -/
theorem renderLe_trans (a b c : EventsDisplay.Event)
    (h1 : EventsDisplay.renderLe a b = true) (h2 : EventsDisplay.renderLe b c = true) :
    EventsDisplay.renderLe a c = true := by
  rw [renderLe_iff] at h1 h2 ⊢
  omega

/-- The render comparator is total. -/
theorem renderLe_total (a b : EventsDisplay.Event) :
    (EventsDisplay.renderLe a b || EventsDisplay.renderLe b a) = true := by
  rw [Bool.or_eq_true, renderLe_iff, renderLe_iff]
  omega

/-- What holding the render comparator means: larger defaulted priority
first, ties by creation tick. -/
theorem renderLe_elim (a b : EventsDisplay.Event)
    (h : EventsDisplay.renderLe a b = true) :
    b.priority.getD 100000 < a.priority.getD 100000 ∨
      (a.priority.getD 100000 = b.priority.getD 100000 ∧ a.createdAt ≤ b.createdAt) := by
  rw [renderLe_iff] at h
  omega

/-- Counterexample to C7 as stated: the defaulted priority of an event
without explicit priority is 100000, which sorts it above an event with
explicit priority 5, so an absent priority is not effectively lowest: the
rendered order of the two events violates the order the claim describes. -/
theorem claim_C7_counterexample :
    EventsDisplay.renderSort [e1C7, e2C7] = [e2C7, e1C7] ∧
    e1C7.priority = some 5 ∧ e2C7.priority = none ∧
    ¬ List.Pairwise (fun a b => claimOrder a b = true) [e2C7, e1C7] := by
  refine ⟨?_, by decide, by decide, by decide⟩
  simp [EventsDisplay.renderSort, List.mergeSort, List.merge, EventsDisplay.renderLe,
    e1C7, e2C7]

/-- C7 as amended: the rendered list is a stable sort of the events by
descending defaulted priority, where an absent priority defaults to 100000
(placing it above any smaller explicit priority), with ties broken by
ascending creation tick. -/
theorem claim_C7_amended_sort (l : List EventsDisplay.Event) :
    (EventsDisplay.renderSort l).Perm l ∧
    (EventsDisplay.renderSort l).Pairwise (fun a b =>
      b.priority.getD 100000 < a.priority.getD 100000 ∨
        (a.priority.getD 100000 = b.priority.getD 100000 ∧ a.createdAt ≤ b.createdAt)) := by
  constructor
  · exact List.mergeSort_perm l _
  · have hs := List.sorted_mergeSort renderLe_trans renderLe_total l
    exact hs.imp (fun {a b} h => renderLe_elim a b h)

/-- Counterexample to C2 as stated: the local player is the breaker and is
not itself flagged as a traitor, yet no "you are now a TRAITOR" notification
is added, because the guard in the code tests the betrayed player's flag
(here true), not the breaker's. -/
theorem claim_C2_counterexample :
    playerByClientID gBroke (some "me") = some pMe ∧
    playerBySmallID gBroke 1 = some pMe ∧
    pMe.isTraitor = false ∧
    pFlag.isTraitor = true ∧
    AllianceDisplay.onBrokeAllianceEvent gBroke (some "me")
      { traitorID := 1, betrayedID := 2 } adEmpty = .ok adEmpty ∧
    adEmpty.allianceEvents = [] := by
  decide

/-- C2 as amended: the branch guard tests the betrayed player's traitor flag,
not the breaker's.  When the betrayed player is unflagged and the traitor
lookup is the local player, the self-directed traitor notification is added;
otherwise, when the betrayed player is the local player, the betrayed
notification naming the traitor is added; when neither branch fires the state
is unchanged. -/
theorem claim_C2_amended_broke_alliance (g : GameView) (cid : Option String)
    (u : BrokeAllianceUpdate) (s : AllianceDisplay.ADState) (my betrayed : PlayerView)
    (hmy : playerByClientID g cid = some my)
    (hb : playerBySmallID g u.betrayedID = some betrayed) :
    (betrayed.isTraitor = false → playerBySmallID g u.traitorID = some my →
      AllianceDisplay.onBrokeAllianceEvent g cid u s =
        .ok (AllianceDisplay.addEvent (traitorNotif g u betrayed) s)) ∧
    (∀ t, playerBySmallID g u.traitorID = some t →
      (betrayed.isTraitor = true ∨ t ≠ my) → betrayed = my →
      AllianceDisplay.onBrokeAllianceEvent g cid u s =
        .ok (AllianceDisplay.addEvent (betrayedNotif g u t) s)) ∧
    ((betrayed.isTraitor = true ∨ playerBySmallID g u.traitorID ≠ some my) →
      betrayed ≠ my →
      AllianceDisplay.onBrokeAllianceEvent g cid u s = .ok s) := by
  unfold AllianceDisplay.onBrokeAllianceEvent
  rw [hmy, hb]
  refine ⟨?_, ?_, ?_⟩
  · intro hf ht
    rw [ht]
    simp [hf, traitorNotif]
  · intro t ht hcond hbm
    subst hbm
    rw [ht]
    rcases hcond with hflag | hne
    · simp [hflag, betrayedNotif]
    · simp [beq_iff_eq, hne, betrayedNotif]
  · intro hcond hne
    rcases hcond with hflag | hmiss
    · simp [hflag, beq_iff_eq, hne]
    · cases hl : playerBySmallID g u.traitorID with
      | none => simp [hl, beq_iff_eq, hne]
      | some t =>
        have htm : t ≠ my := by
          intro he
          exact hmiss (by rw [hl, he])
        simp [hl, beq_iff_eq, hne, htm]

/-- Witness for the amended broke-alliance claim: breaking with the unflagged
player 3 makes the local breaker a traitor; player 4 breaking with the local
player yields the betrayed notification; player 4 breaking with player 3
yields nothing. -/
theorem claim_C2_witness :
    AllianceDisplay.onBrokeAllianceEvent gBroke (some "me")
      { traitorID := 1, betrayedID := 3 } adEmpty =
      .ok (AllianceDisplay.addEvent
        (traitorNotif gBroke { traitorID := 1, betrayedID := 3 } pPlain) adEmpty) ∧
    AllianceDisplay.onBrokeAllianceEvent gBroke (some "me")
      { traitorID := 4, betrayedID := 1 } adEmpty =
      .ok (AllianceDisplay.addEvent
        (betrayedNotif gBroke { traitorID := 4, betrayedID := 1 } pOther) adEmpty) ∧
    AllianceDisplay.onBrokeAllianceEvent gBroke (some "me")
      { traitorID := 4, betrayedID := 3 } adEmpty = .ok adEmpty := by
  refine ⟨?_, ?_, ?_⟩
  · exact (claim_C2_amended_broke_alliance gBroke (some "me") ⟨1, 3⟩ adEmpty pMe pPlain
      (by decide) (by decide)).1 (by decide) (by decide)
  · exact (claim_C2_amended_broke_alliance gBroke (some "me") ⟨4, 1⟩ adEmpty pMe pMe
      (by decide) (by decide)).2.1 pOther (by decide) (Or.inr (by decide)) (by decide)
  · exact (claim_C2_amended_broke_alliance gBroke (some "me") ⟨4, 3⟩ adEmpty pMe pPlain
      (by decide) (by decide)).2.2 (Or.inr (by decide)) (by decide)

/-- Counterexample to C3 as stated: two failed lookups raise a fault instead
of being guarded: the ally-roster refresh dereferences a my-player find that
yields nothing, and the incoming-attack recompute dereferences a failed
attacker lookup during tick. -/
theorem claim_C3_counterexample :
    AllianceDisplay.updateAllianceDisplay gNoMe (some "me") adEmpty =
      .error "TypeError: myPlayer is undefined in updateAllianceDisplay" ∧
    (EventsDisplay.tick gAtkBad (some "me") {} edEmpty).2 =
      some "TypeError: attacker is undefined in the incoming filter" := by
  decide

/-- C3 as amended: a failed lookup of the local player in any update handler
is handled by an early-return guard that suppresses the notification without
a fault (for an untargeted display message the notification is still added,
also without a fault); but failed lookups of other parties, as the
counterexample shows, are dereferenced unguarded and fault. -/
theorem claim_C3_amended_guards (g : GameView) (cid : Option String)
    (u1 : AllianceRequestUpdate) (u2 : AllianceRequestReplyUpdate)
    (u3 : BrokeAllianceUpdate) (u4 : AllianceExpiredUpdate)
    (u5 : TargetPlayerUpdate) (u6 : EmojiUpdate) (u7 : DisplayMessageUpdate)
    (s : AllianceDisplay.ADState) (sE : EventsDisplay.EDState)
    (h : playerByClientID g cid = none) :
    AllianceDisplay.onAllianceRequestEvent g cid u1 s = .ok s ∧
    AllianceDisplay.onAllianceRequestReplyEvent g cid u2 s = .ok s ∧
    AllianceDisplay.onBrokeAllianceEvent g cid u3 s = .ok s ∧
    AllianceDisplay.onAllianceExpiredEvent g cid u4 s = .ok s ∧
    AllianceDisplay.onTargetPlayerEvent g cid u5 s = .ok s ∧
    EventsDisplay.onEmojiMessageEvent g cid u6 sE = .ok sE ∧
    (∃ s2, EventsDisplay.onDisplayMessageEvent g cid u7 sE = .ok s2) := by
  refine ⟨?_, ?_, ?_, ?_, ?_, ?_, ?_⟩
  · simp [AllianceDisplay.onAllianceRequestEvent, h]
  · simp [AllianceDisplay.onAllianceRequestReplyEvent, h]
  · simp [AllianceDisplay.onBrokeAllianceEvent, h]
  · simp [AllianceDisplay.onAllianceExpiredEvent, h]
  · simp [AllianceDisplay.onTargetPlayerEvent, h]
  · simp [EventsDisplay.onEmojiMessageEvent, h]
  · unfold EventsDisplay.onDisplayMessageEvent
    rw [h]
    cases u7.playerID
    · exact ⟨_, rfl⟩
    · exact ⟨sE, rfl⟩

/-- Witness for the amended guard claim: with no client ID every handler of
both overlays completes without fault and without a notification, and an
untargeted display message is still added. -/
theorem claim_C3_witness :
    AllianceDisplay.onAllianceRequestEvent gBroke none ⟨5, 1⟩ adEmpty = .ok adEmpty ∧
    AllianceDisplay.onAllianceRequestReplyEvent gBroke none ⟨⟨5, 1⟩, true⟩ adEmpty = .ok adEmpty ∧
    AllianceDisplay.onBrokeAllianceEvent gBroke none ⟨1, 2⟩ adEmpty = .ok adEmpty ∧
    AllianceDisplay.onAllianceExpiredEvent gBroke none ⟨1, 2⟩ adEmpty = .ok adEmpty ∧
    AllianceDisplay.onTargetPlayerEvent gBroke none ⟨1, 2⟩ adEmpty = .ok adEmpty ∧
    EventsDisplay.onEmojiMessageEvent gBroke none ⟨⟨5, some 1, "hi"⟩⟩ edEmpty = .ok edEmpty ∧
    EventsDisplay.onDisplayMessageEvent gBroke none
      ⟨"news", MessageType.info, none⟩ edEmpty ≠ .error "fault" := by
  have h := claim_C3_amended_guards gBroke none ⟨5, 1⟩ ⟨⟨5, 1⟩, true⟩ ⟨1, 2⟩ ⟨1, 2⟩
    ⟨1, 2⟩ ⟨⟨5, some 1, "hi"⟩⟩ ⟨"news", MessageType.info, none⟩ adEmpty edEmpty rfl
  exact ⟨h.1, h.2.1, h.2.2.1, h.2.2.2.1, h.2.2.2.2.1, h.2.2.2.2.2.1, by decide⟩

/-- C8: an emoji update notifies the local recipient with the sender and the
message; it notifies the local sender addressing a specific found player with
the sent form; and an emoji the local player broadcasts produces no
notification. -/
theorem claim_C8_emoji :
    (∀ (g : GameView) (cid : Option String) (u : EmojiUpdate)
        (s : EventsDisplay.EDState) (my sd : PlayerView) (rid : Nat),
      playerByClientID g cid = some my → u.emoji.recipientID = some rid →
      playerBySmallID g rid = some my →
      playerBySmallID g u.emoji.senderID = some sd →
      EventsDisplay.onEmojiMessageEvent g cid u s =
        .ok (EventsDisplay.addEvent (recvNotif g u sd) s)) ∧
    (∀ (g : GameView) (cid : Option String) (u : EmojiUpdate)
        (s : EventsDisplay.EDState) (my rc : PlayerView) (rid : Nat),
      playerByClientID g cid = some my → u.emoji.recipientID = some rid →
      playerBySmallID g rid = some rc → rc ≠ my →
      playerBySmallID g u.emoji.senderID = some my →
      EventsDisplay.onEmojiMessageEvent g cid u s =
        .ok (EventsDisplay.addEvent (sentNotif g u rc) s)) ∧
    (∀ (g : GameView) (cid : Option String) (u : EmojiUpdate)
        (s : EventsDisplay.EDState) (my : PlayerView),
      playerByClientID g cid = some my → u.emoji.recipientID = none →
      playerBySmallID g u.emoji.senderID = some my →
      EventsDisplay.onEmojiMessageEvent g cid u s = .ok s) := by
  refine ⟨?_, ?_, ?_⟩
  · intro g cid u s my sd rid hmy hr hrm hs
    simp [EventsDisplay.onEmojiMessageEvent, hmy, hr, hrm, hs, recvNotif]
  · intro g cid u s my rc rid hmy hr hrc hne hs
    simp [EventsDisplay.onEmojiMessageEvent, hmy, hr, hrc, hs, beq_iff_eq, hne,
      sentNotif]
  · intro g cid u s my hmy hr hs
    unfold EventsDisplay.onEmojiMessageEvent
    rw [hmy, hr]

/-- Witness for the emoji claim: the local player receives from player 5,
sends to player 2, and broadcasts, with the first two adding the respective
notifications and the broadcast adding nothing. -/
theorem claim_C8_witness :
    EventsDisplay.onEmojiMessageEvent gEmoji (some "me") ⟨⟨5, some 1, "hi"⟩⟩ edEmpty =
      .ok (EventsDisplay.addEvent (recvNotif gEmoji ⟨⟨5, some 1, "hi"⟩⟩ pS) edEmpty) ∧
    EventsDisplay.onEmojiMessageEvent gEmoji (some "me") ⟨⟨1, some 2, "yo"⟩⟩ edEmpty =
      .ok (EventsDisplay.addEvent (sentNotif gEmoji ⟨⟨1, some 2, "yo"⟩⟩ pR) edEmpty) ∧
    EventsDisplay.onEmojiMessageEvent gEmoji (some "me") ⟨⟨1, none, "yo"⟩⟩ edEmpty =
      .ok edEmpty := by
  refine ⟨?_, ?_, ?_⟩
  · exact claim_C8_emoji.1 gEmoji (some "me") ⟨⟨5, some 1, "hi"⟩⟩ edEmpty pMe pS 1
      (by decide) rfl (by decide) (by decide)
  · exact claim_C8_emoji.2.1 gEmoji (some "me") ⟨⟨1, some 2, "yo"⟩⟩ edEmpty pMe pR 2
      (by decide) rfl (by decide) (by decide) (by decide)
  · exact claim_C8_emoji.2.2 gEmoji (some "me") ⟨⟨1, none, "yo"⟩⟩ edEmpty pMe
      (by decide) rfl (by decide)

/-- C1 is a code bug: the pending request created at tick 100 with duration
150 and a reject-publishing onDelete is still pending at tick 270 (the first
sweep tick at or after 250), because the sweep filters only allianceEvents:
no reply intent is ever published and the request is never removed. -/
theorem claim_C1_request_never_swept :
    AllianceDisplay.onAllianceRequestEvent g100 (some "me")
      { requestorID := 5, recipientID := 1 } adS0 = .ok adS1v ∧
    adS1v.allianceRequests = [adReq] ∧
    adReq.createdAt = 100 ∧
    adReq.duration = some 150 ∧
    adReq.onDelete = some (BusEvent.sendAllianceReply pA (some pL) false) ∧
    g270.ticks % 30 = 0 ∧
    g270.ticks ≥ adReq.createdAt + 150 ∧
    AllianceDisplay.tick g270 (some "me") {} adS1v = (adS1v, none) ∧
    adS1v.busEmitted = [] := by
  decide

/-- Members of a successful incoming-attack recompute have a found attacker
that is not bot-typed. -/
theorem filterNonBot_mem (g : GameView) :
    ∀ (l r : List AttackUpdate), EventsDisplay.filterNonBot g l = .ok r →
      ∀ a ∈ r, ∃ p, playerBySmallID g a.attackerID = some p ∧
        p.ptype ≠ PlayerType.bot
  | [], r => by
    intro h a ha
    cases h
    cases ha
  | x :: rest, r => by
    intro h a ha
    cases hp : playerBySmallID g x.attackerID with
    | none =>
      simp only [EventsDisplay.filterNonBot, hp] at h
      cases h
    | some p =>
      cases hr : EventsDisplay.filterNonBot g rest with
      | error e =>
        simp only [EventsDisplay.filterNonBot, hp, hr] at h
        cases h
      | ok r0 =>
        simp only [EventsDisplay.filterNonBot, hp, hr] at h
        by_cases hbot : p.ptype ≠ PlayerType.bot
        · rw [if_pos hbot] at h
          injection h with h2
          subst h2
          rcases List.mem_cons.mp ha with heq | hmem
          · subst heq
            exact ⟨p, hp, hbot⟩
          · exact filterNonBot_mem g rest r0 hr a hmem
        · rw [if_neg hbot] at h
          injection h with h2
          subst h2
          exact filterNonBot_mem g rest r0 hr a ha

/-- C9: after a tick that completes without fault with a local player
present, the recomputed outgoing projection contains no attack whose target
ID is 0 and the recomputed incoming projection contains no attack from a
bot-typed attacker. -/
theorem claim_C9_attack_projections (g : GameView) (cid : Option String)
    (ups : EventsDisplay.EDUpdates) (s : EventsDisplay.EDState) (my : PlayerView)
    (hmy : g.myPlayer = some my)
    (hok : (EventsDisplay.tick g cid ups s).2 = none) :
    (∀ a ∈ (EventsDisplay.tick g cid ups s).1.1.outgoingAttacks, a.targetID ≠ 0) ∧
    (∀ a ∈ (EventsDisplay.tick g cid ups s).1.1.incomingAttacks,
      ∀ p, playerBySmallID g a.attackerID = some p →
        p.ptype ≠ PlayerType.bot) := by
  rcases hd : EventsDisplay.dispatchED g cid ups s with ⟨s1, fe⟩
  cases fe with
  | some e =>
    rw [EventsDisplay.tick, hd] at hok
    cases hok
  | none =>
    cases hfb : EventsDisplay.filterNonBot g my.incomingAttacks with
    | error e =>
      rw [EventsDisplay.tick, hd] at hok
      simp only [hmy, hfb] at hok
      cases hok
    | ok inc =>
      have hres : (EventsDisplay.tick g cid ups s).1.1.outgoingAttacks =
            my.outgoingAttacks.filter (fun a => a.targetID != 0) ∧
          (EventsDisplay.tick g cid ups s).1.1.incomingAttacks = inc := by
        rw [EventsDisplay.tick, hd]
        simp [hmy, hfb]
      constructor
      · intro a ha
        rw [hres.1] at ha
        have := (List.mem_filter.mp ha).2
        simpa using this
      · intro a ha p hp
        rw [hres.2] at ha
        obtain ⟨p0, hp0, hb0⟩ := filterNonBot_mem g my.incomingAttacks inc hfb a ha
        rw [hp] at hp0
        injection hp0 with he
        rw [he]
        exact hb0

/-- Witness for the attack-projection claim: a tick of a game whose local
player has an incoming attack from a human attacker and outgoing attacks
with targets 0 and 9 keeps only the target-9 outgoing attack, and the
incoming attacker is not a bot. -/
theorem claim_C9_witness :
    (EventsDisplay.tick gW9 (some "me") {} edEmpty).2 = none ∧
    atkOut9 ∈ (EventsDisplay.tick gW9 (some "me") {} edEmpty).1.1.outgoingAttacks ∧
    atkOut9.targetID ≠ 0 ∧
    atkOut0 ∉ (EventsDisplay.tick gW9 (some "me") {} edEmpty).1.1.outgoingAttacks ∧
    atkIn9 ∈ (EventsDisplay.tick gW9 (some "me") {} edEmpty).1.1.incomingAttacks ∧
    pAtk.ptype ≠ PlayerType.bot := by
  have h := claim_C9_attack_projections gW9 (some "me") {} edEmpty pL9 rfl (by decide)
  exact ⟨by decide, by decide, h.1 atkOut9 (by decide), by decide, by decide,
    h.2 atkIn9 (by decide) pAtk (by decide)⟩

/-! Helper lemmas for the hidden-overlay claim: update dispatch only appends
to the event lists. -/

/-- ADExtends is reflexive. -/
theorem ADExtends_refl (s : AllianceDisplay.ADState) : ADExtends s s :=
  ⟨rfl, rfl, rfl, rfl, ⟨[], (List.append_nil _).symm⟩, ⟨[], (List.append_nil _).symm⟩⟩

/-- ADExtends is transitive. -/
theorem ADExtends_trans {a b c : AllianceDisplay.ADState}
    (h1 : ADExtends a b) (h2 : ADExtends b c) : ADExtends a c := by
  obtain ⟨ha1, hh1, hs1, hb1, ⟨t1, he1⟩, ⟨r1, hr1⟩⟩ := h1
  obtain ⟨ha2, hh2, hs2, hb2, ⟨t2, he2⟩, ⟨r2, hr2⟩⟩ := h2
  exact ⟨ha2.trans ha1, hh2.trans hh1, hs2.trans hs1, hb2.trans hb1,
    ⟨t1 ++ t2, by rw [he2, he1, List.append_assoc]⟩,
    ⟨r1 ++ r2, by rw [hr2, hr1, List.append_assoc]⟩⟩

/-- Appending an alliance event extends the state. -/
theorem ADExtends_addEvent (e : AllianceDisplay.AllianceEvent)
    (s : AllianceDisplay.ADState) : ADExtends s (AllianceDisplay.addEvent e s) :=
  ⟨rfl, rfl, rfl, rfl, ⟨[e], rfl⟩, ⟨[], (List.append_nil _).symm⟩⟩

/-- Appending an alliance request extends the state. -/
theorem ADExtends_addRequest (r : AllianceDisplay.AllianceRequest)
    (s : AllianceDisplay.ADState) :
    ADExtends s (AllianceDisplay.addAllianceRequest r s) :=
  ⟨rfl, rfl, rfl, rfl, ⟨[], (List.append_nil _).symm⟩, ⟨[r], rfl⟩⟩

/-- The alliance-request handler only appends. -/
theorem onAllianceRequestEvent_extends (g : GameView) (cid : Option String)
    (u : AllianceRequestUpdate) (s s2 : AllianceDisplay.ADState)
    (h : AllianceDisplay.onAllianceRequestEvent g cid u s = .ok s2) :
    ADExtends s s2 := by
  unfold AllianceDisplay.onAllianceRequestEvent at h
  repeat' (first | split at h | simp only [] at h)
  all_goals try cases h
  all_goals first
    | exact ADExtends_refl _
    | exact ADExtends_addEvent _ _
    | exact ADExtends_addRequest _ _

/-- The alliance-reply handler only appends. -/
theorem onAllianceRequestReplyEvent_extends (g : GameView) (cid : Option String)
    (u : AllianceRequestReplyUpdate) (s s2 : AllianceDisplay.ADState)
    (h : AllianceDisplay.onAllianceRequestReplyEvent g cid u s = .ok s2) :
    ADExtends s s2 := by
  unfold AllianceDisplay.onAllianceRequestReplyEvent at h
  repeat' (first | split at h | simp only [] at h)
  all_goals try cases h
  all_goals first
    | exact ADExtends_refl _
    | exact ADExtends_addEvent _ _
    | exact ADExtends_addRequest _ _

/-- The broke-alliance handler only appends. -/
theorem onBrokeAllianceEvent_extends (g : GameView) (cid : Option String)
    (u : BrokeAllianceUpdate) (s s2 : AllianceDisplay.ADState)
    (h : AllianceDisplay.onBrokeAllianceEvent g cid u s = .ok s2) :
    ADExtends s s2 := by
  unfold AllianceDisplay.onBrokeAllianceEvent at h
  repeat' (first | split at h | simp only [] at h)
  all_goals try cases h
  all_goals first
    | exact ADExtends_refl _
    | exact ADExtends_addEvent _ _
    | exact ADExtends_addRequest _ _

/-- The alliance-expired handler only appends. -/
theorem onAllianceExpiredEvent_extends (g : GameView) (cid : Option String)
    (u : AllianceExpiredUpdate) (s s2 : AllianceDisplay.ADState)
    (h : AllianceDisplay.onAllianceExpiredEvent g cid u s = .ok s2) :
    ADExtends s s2 := by
  unfold AllianceDisplay.onAllianceExpiredEvent at h
  repeat' (first | split at h | simp only [] at h)
  all_goals try cases h
  all_goals first
    | exact ADExtends_refl _
    | exact ADExtends_addEvent _ _
    | exact ADExtends_addRequest _ _

/-- The target-player handler only appends. -/
theorem onTargetPlayerEvent_extends (g : GameView) (cid : Option String)
    (u : TargetPlayerUpdate) (s s2 : AllianceDisplay.ADState)
    (h : AllianceDisplay.onTargetPlayerEvent g cid u s = .ok s2) :
    ADExtends s s2 := by
  unfold AllianceDisplay.onTargetPlayerEvent at h
  repeat' (first | split at h | simp only [] at h)
  all_goals try cases h
  all_goals first
    | exact ADExtends_refl _
    | exact ADExtends_addEvent _ _
    | exact ADExtends_addRequest _ _

/-- Running a batch through an append-only handler extends the state, also
when a later update faults. -/
theorem runHandlersAD_extends {α : Type}
    (h : α → AllianceDisplay.ADState → Except String AllianceDisplay.ADState)
    (hh : ∀ u s s2, h u s = .ok s2 → ADExtends s s2) :
    ∀ (us : List α) (s : AllianceDisplay.ADState),
      ADExtends s (runHandlers h us s).1
  | [], s => ADExtends_refl s
  | u :: rest, s => by
    unfold runHandlers
    cases hr : h u s with
    | error e => simp only [hr]; exact ADExtends_refl s
    | ok s2 =>
      simp only [hr]
      exact ADExtends_trans (hh u s s2 hr) (runHandlersAD_extends h hh rest s2)

/-- Sequencing extends when both stages do. -/
theorem andThenStep_extends {s : AllianceDisplay.ADState}
    {r : AllianceDisplay.ADState × Option String}
    {f : AllianceDisplay.ADState → AllianceDisplay.ADState × Option String}
    (h1 : ADExtends s r.1) (h2 : ∀ s0, ADExtends s0 (f s0).1) :
    ADExtends s (andThenStep r f).1 := by
  rcases r with ⟨s1, fe⟩
  cases fe with
  | none => exact ADExtends_trans h1 (h2 s1)
  | some e => exact h1

/-- The whole alliance-overlay update dispatch only appends. -/
theorem dispatchAD_extends (g : GameView) (cid : Option String)
    (ups : AllianceDisplay.ADUpdates) (s : AllianceDisplay.ADState) :
    ADExtends s (AllianceDisplay.dispatchAD g cid ups s).1 := by
  unfold AllianceDisplay.dispatchAD
  refine andThenStep_extends
    (andThenStep_extends
      (andThenStep_extends
        (andThenStep_extends
          (runHandlersAD_extends _ (fun u s s2 => onAllianceRequestEvent_extends g cid u s s2)
            ups.allianceRequest s)
          (fun s0 => runHandlersAD_extends _
            (fun u s s2 => onAllianceRequestReplyEvent_extends g cid u s s2)
            ups.allianceRequestReply s0))
        (fun s0 => runHandlersAD_extends _
          (fun u s s2 => onBrokeAllianceEvent_extends g cid u s s2)
          ups.brokeAlliance s0))
      (fun s0 => runHandlersAD_extends _
        (fun u s s2 => onTargetPlayerEvent_extends g cid u s s2)
        ups.targetPlayer s0))
    (fun s0 => runHandlersAD_extends _
      (fun u s s2 => onAllianceExpiredEvent_extends g cid u s s2)
      ups.allianceExpired s0)

/-- C10: a tick of the hidden alliance overlay (after the one-time reveal has
run) is exactly the update dispatch: the roster is not refreshed and the
event lists are not swept, existing entries (including expired ones) are kept
and the handlers still append. -/
theorem claim_C10_hidden_overlay (g : GameView) (cid : Option String)
    (ups : AllianceDisplay.ADUpdates) (s : AllianceDisplay.ADState)
    (hshown : s.shownOnInit = true) (hhid : s.allianceDisplayHidden = true) :
    AllianceDisplay.tick g cid ups s = AllianceDisplay.dispatchAD g cid ups s ∧
    (AllianceDisplay.dispatchAD g cid ups s).1.allies = s.allies ∧
    (∃ tail, (AllianceDisplay.dispatchAD g cid ups s).1.allianceEvents =
      s.allianceEvents ++ tail) ∧
    (∃ tail, (AllianceDisplay.dispatchAD g cid ups s).1.allianceRequests =
      s.allianceRequests ++ tail) := by
  obtain ⟨hal, hhd, hsh, hbus, hev, hreq⟩ := dispatchAD_extends g cid ups s
  refine ⟨?_, hal, hev, hreq⟩
  rcases hd : AllianceDisplay.dispatchAD g cid ups s with ⟨s1, fe⟩
  rw [hd] at hhd hsh
  simp only [] at hhd hsh
  cases fe with
  | some e => rw [AllianceDisplay.tick, hd]
  | none =>
    rw [AllianceDisplay.tick, hd]
    simp [hsh, hshown, hhd, hhid]

/-- Witness for the hidden-overlay claim: at tick 300 (a sweep tick) the
hidden overlay keeps its long-expired event while the broke-alliance update
still appends its notification, and the roster is untouched. -/
theorem claim_C10_witness :
    AllianceDisplay.tick gHid (some "me") upsHid sHide =
      AllianceDisplay.dispatchAD gHid (some "me") upsHid sHide ∧
    (AllianceDisplay.dispatchAD gHid (some "me") upsHid sHide).1.allies = sHide.allies ∧
    (AllianceDisplay.tick gHid (some "me") upsHid sHide).1.allianceEvents =
      [eHid, betrayedNotif gHid { traitorID := 4, betrayedID := 1 } pOther] ∧
    eHid ∈ (AllianceDisplay.tick gHid (some "me") upsHid sHide).1.allianceEvents ∧
    gHid.ticks - eHid.createdAt ≥ eHid.duration.getD 150 ∧
    gHid.ticks % 30 = 0 := by
  have h := claim_C10_hidden_overlay gHid (some "me") upsHid sHide rfl rfl
  exact ⟨h.1, h.2.1, by decide, by decide, by decide, by decide⟩

end OpenFront
